import Mathlib

/-!
Verification of the input-masking and validation subsystem of the
multi-step registration form (src/src/app/page.tsx).

The repository ships a single source file, `src/src/app/page.tsx`, which
imports the mask helpers (`phoneNumberMask`, `cpfMask`, `cepMask`) from
`@/utils/mask` and the postal-code lookup (`getCepData`) from
`@/utils/getCep`; those two util files are not part of the sources at
hand, so the mask engine and the lookup client are modelled from the
specification, while the validation schema, the cep cache effect, the
submit handlers and the stepper logic are embedded directly from
`page.tsx`.
-/

namespace RegisterForm

/- ================= Mask Engine (modelled from the spec) ============== -/

/-- Modelled from the spec: the shape of a mask application result,
`MaskResult = (value, unmaskedValue, isComplete)` where `value` is the
formatted string, `unmaskedValue` the digits-only string, and
`isComplete` the completeness flag. -/
structure MaskResult where
  value : String
  unmaskedValue : String
  isComplete : Bool
deriving DecidableEq

/-- Fill a mask template with digits: a template character `X` consumes
the next digit, any other template character is a literal emitted as long
as digits remain; output stops when the digits run out, and digits beyond
the template's slots are dropped from the formatted value. -/
def applyTemplate : List Char → List Char → List Char
  | _, [] => []
  | [], _ :: _ => []
  | t :: tpl, d :: ds =>
    if t = 'X' then d :: applyTemplate tpl ds
    else t :: applyTemplate tpl (d :: ds)

/-- Number of digit slots (`X` characters) in a template. -/
def slotCount (tpl : List Char) : Nat :=
  (tpl.filter (fun c => c = 'X')).length

/-- Digits-only projection of a string (what the spec calls stripping all
non-digit characters). -/
def extractDigits (s : String) : List Char :=
  s.data.filter Char.isDigit

/-- Modelled from the spec: the phone template depends on the digit
count — `(DD) DDDDD-DDDD` for 11 digits, `(DD) DDDD-DDDD` otherwise. -/
def phoneTemplate (n : Nat) : List Char :=
  if n > 10 then "(XX) XXXXX-XXXX".data else "(XX) XXXX-XXXX".data

/-- Modelled from the spec: `phoneNumberMask` (missing `@/utils/mask`)
strips non-digits, formats as `(DD) DDDDD-DDDD` or `(DD) DDDD-DDDD`
depending on digit count, and is complete at 10 or 11 digits. -/
def phoneNumberMask (s : String) : MaskResult where
  value := ⟨applyTemplate (phoneTemplate (extractDigits s).length) (extractDigits s)⟩
  unmaskedValue := ⟨extractDigits s⟩
  isComplete := (extractDigits s).length = 10 || (extractDigits s).length = 11

/-- Modelled from the spec: `cpfMask` (missing `@/utils/mask`) strips
non-digits, formats as `DDD.DDD.DDD-DD`, complete at 11 digits. -/
def cpfMask (s : String) : MaskResult where
  value := ⟨applyTemplate "XXX.XXX.XXX-XX".data (extractDigits s)⟩
  unmaskedValue := ⟨extractDigits s⟩
  isComplete := (extractDigits s).length = 11

/-- Modelled from the spec: `cepMask` (missing `@/utils/mask`) strips
non-digits, formats as `DDDDD-DDD`, complete at 8 digits. -/
def cepMask (s : String) : MaskResult where
  value := ⟨applyTemplate "XXXXX-XXX".data (extractDigits s)⟩
  unmaskedValue := ⟨extractDigits s⟩
  isComplete := (extractDigits s).length = 8

/- ============== Form data model (src/src/app/page.tsx) =============== -/

/-- The gender enum of the schema: `z.enum(['male', 'female', 'other'])`
(page.tsx line 52). In this typed embedding a gender value is always one
of the three literals, which is exactly what the enum check enforces. -/
inductive Gender where
  | male
  | female
  | other
deriving DecidableEq

/-- The `personal` group of `FormProps` (page.tsx lines 38-53).
`bornDate` is `z.any().transform(...)`, which never fails validation; it
is kept as the raw string. -/
structure PersonalData where
  firstName : String
  lastName : String
  phone : String
  cpf : String
  bornDate : String
  gender : Gender
deriving DecidableEq

/-- The `address` group of `FormProps` (page.tsx lines 54-65). The
`complement` field is `.optional()` in the schema, but every field is
registered with `defaultValue=''`, so at the form level it is always a
string. -/
structure AddressData where
  cep : String
  city : String
  uf : String
  district : String
  street : String
  streetNumber : String
  complement : String
deriving DecidableEq

/-- The `account` group of `FormProps` (page.tsx lines 66-70). -/
structure AccountData where
  email : String
  password : String
  passwordConfirm : String
deriving DecidableEq

/-- The whole `FormProps` record (page.tsx line 77). -/
structure FormData where
  personal : PersonalData
  address : AddressData
  account : AccountData
deriving DecidableEq

/-- A single validation issue: the dotted field path it is attached to
and its message, as produced by the zod resolver. -/
structure FieldError where
  path : String
  message : String
deriving DecidableEq

/-- One schema check: an empty issue list when `ok` holds, otherwise the
single issue at `path` with `message`. -/
def check (ok : Bool) (path message : String) : List FieldError :=
  if ok then [] else [⟨path, message⟩]

/- ============ Validation schema (page.tsx lines 36-75) =============== -/

/-- The name-field regex test of page.tsx lines 42 and 46. The regex is
one-or-more Unicode letters or whitespace, with no anchors, so as a test
it asks only that the string CONTAIN at least one letter-or-whitespace
character (zod resets lastIndex before testing, so the g flag has no
effect). The Unicode letter class is embedded as `Char.isAlpha` and the
whitespace class as `Char.isWhitespace`; every string this development
evaluates the test on is ASCII. -/
def containsLetterOrSpace (s : String) : Bool :=
  s.data.any (fun c => c.isAlpha || c.isWhitespace)

/-- The checks shared by `firstName` and `lastName` (page.tsx lines
39-46): `.min(4, 'Insira um nome válido')` then the regex with message
`'Só pode conter letras'`. zod collects every failing string check, so
both issues can appear together. -/
def nameErrors (path : String) (s : String) : List FieldError :=
  check (4 ≤ s.length) path "Insira um nome válido" ++
  check (containsLetterOrSpace s) path "Só pode conter letras"

/-- The anchored regex of `streetNumber` (page.tsx line 63): one or more
digits and nothing else. -/
def isDigitString (s : String) : Bool :=
  s ≠ "" && s.data.all Char.isDigit

/-- Character-level prefix test (`charsLead pre s` holds when `pre` is an
initial segment of `s`). -/
def charsLead : List Char → List Char → Bool
  | [], _ => true
  | _ :: _, [] => false
  | p :: ps, c :: cs => p = c && charsLead ps cs

/-- String prefix test, by character lists. -/
def strLeads (pre s : String) : Bool :=
  charsLead pre.data s.data

/-- Split a character list at every occurrence of `sep` (the semantics of
the string split used below: splitting the empty list yields one empty
part). -/
def splitChar : List Char → Char → List (List Char)
  | [], _ => [[]]
  | c :: cs, sep =>
    if c = sep then [] :: splitChar cs sep
    else
      match splitChar cs sep with
      | r :: rs => (c :: r) :: rs
      | [] => [[c]]

/-- Modelled from the spec: the email-format rule of `account.email`
(page.tsx line 67 delegates to zod's built-in `.email()`, whose regex is
library code outside this repository). Embedded as: one `@` separating a
nonempty local part from a domain that contains a dot and neither starts
nor ends with one. No claim depends on the exact email regex. -/
def emailValid (s : String) : Bool :=
  match splitChar s.data '@' with
  | [lp, dom] =>
    !lp.isEmpty && dom.contains '.' &&
      !(dom.head? = some '.') && !(dom.getLast? = some '.')
  | _ => false

/-- Issues of the `personal` group (page.tsx lines 38-53), in schema
order. `bornDate` (`z.any().transform`) and `gender` (enum over the typed
`Gender`) contribute none. -/
def personalErrors (p : PersonalData) : List FieldError :=
  nameErrors "personal.firstName" p.firstName ++
  nameErrors "personal.lastName" p.lastName ++
  check (phoneNumberMask p.phone).isComplete "personal.phone" "O número precisa ser válido" ++
  check (cpfMask p.cpf).isComplete "personal.cpf" "O CPF precisa ser válido"

/-- Issues of the `address` group (page.tsx lines 54-65), in schema
order. -/
def addressErrors (a : AddressData) : List FieldError :=
  check (cepMask a.cep).isComplete "address.cep" "O cep precisa ser válido" ++
  check (3 ≤ a.city.length) "address.city" "Tamanho minimo desse campo e 3" ++
  check (a.city.length ≤ 60) "address.city" "Quantidade de digitos ultrapassou o limite" ++
  check (a.uf.length = 2) "address.uf" "Insira uma UF valida" ++
  check (3 ≤ a.district.length) "address.district" "Tamanho minimo desse campo e 2" ++
  check (a.district.length ≤ 60) "address.district" "Quantidade de digitos ultrapassou o limite" ++
  check (3 ≤ a.street.length) "address.street" "Tamanho minimo desse campo e 2" ++
  check (a.street.length ≤ 60) "address.street" "Quantidade de digitos ultrapassou o limite" ++
  check (isDigitString a.streetNumber) "address.streetNumber" "Só pode conter números" ++
  check (a.complement.length ≤ 60) "address.complement" "Quantidade de digitos ultrapassou o limite"

/-- Per-field issues of the `account` group (page.tsx lines 66-70):
`email` carries the email-format check; `password` and `passwordConfirm`
are bare `z.string()` with no checks, so they contribute no issues. -/
def accountErrors (a : AccountData) : List FieldError :=
  check (emailValid a.email) "account.email" "Insira um e-mail válido"

/-- The cross-field `.refine` of page.tsx lines 72-75: passwords must
match; on mismatch one issue with message `'As senhas não conferem'` at
path `['account.passwordConfirm']`, which the resolver joins to the
dotted path `account.passwordConfirm`. -/
def crossFieldErrors (d : FormData) : List FieldError :=
  check (d.account.password = d.account.passwordConfirm)
    "account.passwordConfirm" "As senhas não conferem"

/-- All per-field issues, in the schema's group order. -/
def allFieldErrors (d : FormData) : List FieldError :=
  personalErrors d.personal ++ addressErrors d.address ++ accountErrors d.account

/-- `validate(FormData)`: the full parse of `schemaForm`. Field issues
come first, then the `.refine` issue. In the typed embedding every field
is a string of the right type, so a failing string check marks the parse
dirty without aborting it, and zod then still runs the top-level
refinement — the refinement issue is produced independently of the field
issues. The parse succeeds exactly when the list is empty. -/
def validate (d : FormData) : List FieldError :=
  allFieldErrors d ++ crossFieldErrors d

/-- Every per-field issue the schema can produce, in schema order. -/
def possibleFieldErrors : List FieldError :=
  [⟨"personal.firstName", "Insira um nome válido"⟩,
   ⟨"personal.firstName", "Só pode conter letras"⟩,
   ⟨"personal.lastName", "Insira um nome válido"⟩,
   ⟨"personal.lastName", "Só pode conter letras"⟩,
   ⟨"personal.phone", "O número precisa ser válido"⟩,
   ⟨"personal.cpf", "O CPF precisa ser válido"⟩,
   ⟨"address.cep", "O cep precisa ser válido"⟩,
   ⟨"address.city", "Tamanho minimo desse campo e 3"⟩,
   ⟨"address.city", "Quantidade de digitos ultrapassou o limite"⟩,
   ⟨"address.uf", "Insira uma UF valida"⟩,
   ⟨"address.district", "Tamanho minimo desse campo e 2"⟩,
   ⟨"address.district", "Quantidade de digitos ultrapassou o limite"⟩,
   ⟨"address.street", "Tamanho minimo desse campo e 2"⟩,
   ⟨"address.street", "Quantidade de digitos ultrapassou o limite"⟩,
   ⟨"address.streetNumber", "Só pode conter números"⟩,
   ⟨"address.complement", "Quantidade de digitos ultrapassou o limite"⟩,
   ⟨"account.email", "Insira um e-mail válido"⟩]

/- ======== Submit flow and stepper (page.tsx lines 152-200, 509) ====== -/

/-- page.tsx line 79: the step-index-to-group map. -/
def stepToFormProp : List String := ["personal", "address", "account"]

/-- `errors[stepToFormProp[activeStep]] !== undefined` (page.tsx line
164): the resolver's nested error object has an entry for a group exactly
when some issue path lies under that group. -/
def hasGroupErrors (d : FormData) (step : Nat) : Bool :=
  (validate d).any (fun e => strLeads (stepToFormProp.getD step "" ++ ".") e.path)

/-- The submit flow: `handleSubmit(onSubmit, onSubmitError)` (page.tsx
line 200) validates the full schema over the whole form value —
independently of the active step — then runs `onSubmit` (lines 169-177)
when the issue list is empty and `onSubmitError` (lines 156-167)
otherwise; the result is the new active step. -/
def submitStep (d : FormData) (activeStep : Nat) : Nat :=
  if validate d = [] then
    if activeStep ≠ 2 then activeStep + 1 else activeStep
  else
    if hasGroupErrors d activeStep then activeStep
    else if activeStep ≠ 2 then activeStep + 1 else activeStep

/-- page.tsx line 152: `useState(1)` — the stepper starts at step 1. -/
def initialActiveStep : Nat := 1

/-- The UI events that can change the active step: a submit attempt
(the single submit button, line 510) and the back button. -/
inductive StepEvent where
  | submit (d : FormData)
  | back

/-- One step transition. The back button runs `handlePrevActiveStep`
(line 184) and is rendered only when `activeStep !== 0` (line 509), so
the back event is a no-op at step 0. -/
def stepTransition (s : Nat) : StepEvent → Nat
  | .submit d => submitStep d s
  | .back => if s ≠ 0 then s - 1 else s

/-- Active-step values reachable from the initial state through submit
and back events. -/
inductive StepReachable : Nat → Prop
  | init : StepReachable initialActiveStep
  | next {s : Nat} (e : StepEvent) : StepReachable s → StepReachable (stepTransition s e)

/- ========== Cep autofill effect (page.tsx lines 103-149) ============= -/

/-- The `ICepSetValues` record consumed by `setAddressValues`: the five
address fields of the lookup response, each possibly absent. -/
structure CepSetValues where
  localidade : Option String
  bairro : Option String
  logradouro : Option String
  complemento : Option String
  uf : Option String
deriving DecidableEq

/-- An `ICepAddressUtil` cache entry (page.tsx lines 103 and 146): the
masked cep key plus the five address fields. -/
structure CepRecord where
  cep : String
  bairro : Option String
  localidade : Option String
  logradouro : Option String
  complemento : Option String
  uf : Option String
deriving DecidableEq

/-- Projection of a cache entry to the shape `setAddressValues` reads. -/
def CepRecord.toSetValues (r : CepRecord) : CepSetValues :=
  ⟨r.localidade, r.bairro, r.logradouro, r.complemento, r.uf⟩

/-- `setAddressValues` (page.tsx lines 105-111): overwrite city,
district, street, complement and uf with the record's fields, defaulting
each absent field to the empty string. -/
def setAddressValues (v : CepSetValues) (f : FormData) : FormData :=
  { f with address :=
    { f.address with
        city := v.localidade.getD ""
        district := v.bairro.getD ""
        street := v.logradouro.getD ""
        complement := v.complemento.getD ""
        uf := v.uf.getD "" } }

/-- The state the cep effect touches: the form values, the `cepsCache`
ref (page.tsx line 103, initially empty), and the log of `getCepData`
invocations, newest last. -/
structure CepState where
  form : FormData
  cache : List CepRecord
  networkCalls : List String
deriving DecidableEq

/-- Re-masking of the watched cep value (page.tsx line 132). -/
def updateCepField (st : CepState) (v : String) : CepState :=
  { st with form :=
    { st.form with address := { st.form.address with cep := (cepMask v).value } } }

/-- The cep `useEffect` (page.tsx lines 125-149), run when the watched
cep value changes to `cepValue`: bail out on the empty (falsy) string,
re-mask the field, and when the mask is complete either fill the address
from the cache hit, or call `getCepData` and — once it resolves — fill
the address and push the record onto the cache. `fetch` models
`getCepData` (missing `@/utils/getCep`): `some` is a resolved record,
`none` a rejected or never-resolving promise, in which case the `.then`
callback never runs but the call was still made. -/
def processCep (fetch : String → Option CepSetValues) (st : CepState)
    (cepValue : String) : CepState :=
  if cepValue = "" then st
  else if (cepMask cepValue).isComplete then
    match st.cache.find? (fun r => r.cep = (cepMask cepValue).value) with
    | some r =>
      { updateCepField st cepValue with
          form := setAddressValues r.toSetValues (updateCepField st cepValue).form }
    | none =>
      match fetch (cepMask cepValue).unmaskedValue with
      | some a =>
        { form := setAddressValues a (updateCepField st cepValue).form
          cache := st.cache ++
            [⟨(cepMask cepValue).value, a.bairro, a.localidade, a.logradouro,
              a.complemento, a.uf⟩]
          networkCalls := st.networkCalls ++ [(cepMask cepValue).unmaskedValue] }
      | none =>
        { updateCepField st cepValue with
            networkCalls := st.networkCalls ++ [(cepMask cepValue).unmaskedValue] }
  else updateCepField st cepValue

/-- Cep-effect states reachable within one session: any initial form with
an empty cache and no calls made, closed under the effect. -/
inductive CepReachable (fetch : String → Option CepSetValues) : CepState → Prop
  | init (f : FormData) : CepReachable fetch ⟨f, [], []⟩
  | next {st : CepState} (v : String) :
      CepReachable fetch st → CepReachable fetch (processCep fetch st v)

/- ================= Concrete data for the witnesses =================== -/

/-- An empty form value, as registered by the `defaultValue=''`
controllers. -/
def sampleForm : FormData where
  personal :=
    { firstName := "", lastName := "", phone := "", cpf := "", bornDate := ""
      gender := Gender.male }
  address :=
    { cep := "", city := "", uf := "", district := "", street := ""
      streetNumber := "", complement := "" }
  account := { email := "", password := "", passwordConfirm := "" }

/-- A form whose personal group validates while the other groups do
not. -/
def sampleStepData : FormData :=
  { sampleForm with personal :=
    { firstName := "Joana", lastName := "Silva", phone := "11987654321"
      cpf := "12345678901", bornDate := "", gender := Gender.male } }

/-- A form with mismatching passwords. -/
def sampleMismatchData : FormData :=
  { sampleForm with account :=
    { email := "", password := "abc123", passwordConfirm := "abc124" } }

/-- A concrete lookup oracle: resolves the unmasked code 01001000 and
rejects everything else. -/
def sampleFetch : String → Option CepSetValues := fun u =>
  if u = "01001000" then
    some ⟨some "São Paulo", some "Sé", some "Praça da Sé", some "lado ímpar", some "SP"⟩
  else none

/-- The cache entry the oracle's record produces for cep 01001-000. -/
def sampleCepRecord : CepRecord :=
  ⟨"01001-000", some "Sé", some "São Paulo", some "Praça da Sé", some "lado ímpar", some "SP"⟩

/-- A state whose cache already holds 01001-000. -/
def sampleCachedState : CepState := ⟨sampleForm, [sampleCepRecord], []⟩

/-- The state after one cep-effect run on the empty initial state. -/
def sampleCepState1 : CepState := processCep sampleFetch ⟨sampleForm, [], []⟩ "01001000"

/- ======================== Helper theorems ============================ -/

theorem applyTemplate_filter_digits :
    ∀ (tpl ds : List Char),
      (∀ c ∈ ds, c.isDigit = true) →
      (∀ c ∈ tpl, c = 'X' ∨ c.isDigit = false) →
      ds.length ≤ slotCount tpl →
      (applyTemplate tpl ds).filter Char.isDigit = ds := by
  intro tpl
  induction tpl with
  | nil =>
    intro ds _ _ hlen
    have : ds = [] := by
      cases ds with
      | nil => rfl
      | cons d ds' => simp [slotCount] at hlen
    subst this
    rfl
  | cons t tpl ih =>
    intro ds hds htpl hlen
    cases ds with
    | nil => rfl
    | cons d ds' =>
      have hd : d.isDigit = true := hds d (by simp)
      by_cases htX : t = 'X'
      · subst htX
        rw [applyTemplate, if_pos rfl, List.filter_cons, if_pos hd]
        congr 1
        apply ih
        · intro c hc; exact hds c (by simp [hc])
        · intro c hc; exact htpl c (by simp [hc])
        · have hs : slotCount ('X' :: tpl) = slotCount tpl + 1 := by
            simp [slotCount, List.filter_cons]
          simp only [List.length_cons] at hlen
          omega
      · have ht : t.isDigit = false := by
          rcases htpl t (by simp) with h | h
          · exact absurd h htX
          · exact h
        rw [applyTemplate, if_neg htX, List.filter_cons, if_neg (by simp [ht])]
        apply ih
        · exact hds
        · intro c hc; exact htpl c (by simp [hc])
        · have hs : slotCount (t :: tpl) = slotCount tpl := by
            simp [slotCount, List.filter_cons, htX]
          omega

theorem mem_filter_isDigit (l : List Char) :
    ∀ c ∈ l.filter Char.isDigit, c.isDigit = true := by
  intro c hc
  exact (List.mem_filter.mp hc).2

theorem mem_check_iff {ok : Bool} {p m : String} {e : FieldError} :
    e ∈ check ok p m ↔ (ok = false ∧ e = ⟨p, m⟩) := by
  unfold check
  cases ok <;> simp

theorem eq_of_mem_check {ok : Bool} {p m : String} {e : FieldError}
    (h : e ∈ check ok p m) : e = ⟨p, m⟩ :=
  (mem_check_iff.mp h).2

theorem allFieldErrors_sub (d : FormData) :
    ∀ e ∈ allFieldErrors d, e ∈ possibleFieldErrors := by
  unfold allFieldErrors personalErrors addressErrors accountErrors nameErrors
  simp only [List.forall_mem_append]
  repeat' apply And.intro
  all_goals intro e he
  all_goals rw [eq_of_mem_check he]
  all_goals decide

theorem cepMask_complete_iff (s : String) :
    (cepMask s).isComplete = true ↔ (extractDigits s).length = 8 := by
  simp [cepMask]

/-- A complete cep stays complete through re-masking, whether re-masked
from its formatted value or from its unmasked value. -/
theorem cepMask_value_complete {v : String} (h : (cepMask v).isComplete = true) :
    (cepMask (cepMask v).value).isComplete = true ∧
    (cepMask (cepMask v).unmaskedValue).isComplete = true := by
  have hlen : (extractDigits v).length = 8 := (cepMask_complete_iff v).mp h
  have hfd : (applyTemplate "XXXXX-XXX".data (extractDigits v)).filter Char.isDigit
      = extractDigits v :=
    applyTemplate_filter_digits _ _ (mem_filter_isDigit v.data) (by decide)
      (by rw [hlen]; decide)
  constructor
  · rw [cepMask_complete_iff]
    show ((applyTemplate "XXXXX-XXX".data (extractDigits v)).filter Char.isDigit).length = 8
    rw [hfd, hlen]
  · rw [cepMask_complete_iff]
    show ((extractDigits v).filter Char.isDigit).length = 8
    have h2 : (extractDigits v).filter Char.isDigit = extractDigits v :=
      List.filter_eq_self.mpr (mem_filter_isDigit v.data)
    rw [h2, hlen]

/- ======================== Claim theorems ============================= -/

/-- C7: for every digit string of length at most 11, phone masking is
idempotent — applying `phoneNumberMask` to the `value` field of a
previous `phoneNumberMask` result yields that same value. -/
theorem phone_mask_idempotent (s : String)
    (hdig : ∀ c ∈ s.data, c.isDigit = true) (hlen : s.data.length ≤ 11) :
    (phoneNumberMask (phoneNumberMask s).value).value = (phoneNumberMask s).value := by
  have hself : extractDigits s = s.data := by
    unfold extractDigits
    exact List.filter_eq_self.mpr hdig
  have htpl : ∀ c ∈ phoneTemplate s.data.length, c = 'X' ∨ c.isDigit = false := by
    unfold phoneTemplate
    split
    · decide
    · decide
  have hslot : s.data.length ≤ slotCount (phoneTemplate s.data.length) := by
    unfold phoneTemplate
    split
    · have h11 : slotCount "(XX) XXXXX-XXXX".data = 11 := by decide
      omega
    · next hgt =>
      have h10 : slotCount "(XX) XXXX-XXXX".data = 10 := by decide
      omega
  have key : extractDigits (phoneNumberMask s).value = s.data := by
    show (applyTemplate (phoneTemplate (extractDigits s).length)
        (extractDigits s)).filter Char.isDigit = s.data
    rw [hself]
    exact applyTemplate_filter_digits _ _ hdig htpl hslot
  show (⟨applyTemplate (phoneTemplate (extractDigits (phoneNumberMask s).value).length)
      (extractDigits (phoneNumberMask s).value)⟩ : String)
    = ⟨applyTemplate (phoneTemplate (extractDigits s).length) (extractDigits s)⟩
  rw [key, hself]

/-- Witness for C7 at the 11-digit string 11987654321. -/
theorem phone_mask_idempotent_witness :
    (phoneNumberMask (phoneNumberMask "11987654321").value).value
      = (phoneNumberMask "11987654321").value :=
  phone_mask_idempotent "11987654321" (by decide) (by decide)

/-- C6: `cpfMask` reports completeness exactly when the digits-only
unmasked form of the input has 11 digits (the `unmaskedValue` field is
that digits-only form), and the `personal.cpf` field produces its
validation issue exactly when the mask is not complete. -/
theorem cpf_complete_iff_eleven_digits (s : String) (p : PersonalData) :
    ((cpfMask s).isComplete = true ↔ (s.data.filter Char.isDigit).length = 11) ∧
    ((cpfMask s).unmaskedValue.data = s.data.filter Char.isDigit) ∧
    ((⟨"personal.cpf", "O CPF precisa ser válido"⟩ : FieldError) ∈ personalErrors p ↔
      (cpfMask p.cpf).isComplete = false) := by
  refine ⟨by simp [cpfMask, extractDigits], rfl, ?_⟩
  unfold personalErrors nameErrors
  constructor
  · intro hmem
    rcases List.mem_append.mp hmem with h | h
    · rcases List.mem_append.mp h with h | h
      · rcases List.mem_append.mp h with h | h
        · rcases List.mem_append.mp h with h | h
          · exact absurd (eq_of_mem_check h) (by decide)
          · exact absurd (eq_of_mem_check h) (by decide)
        · rcases List.mem_append.mp h with h | h
          · exact absurd (eq_of_mem_check h) (by decide)
          · exact absurd (eq_of_mem_check h) (by decide)
      · exact absurd (eq_of_mem_check h) (by decide)
    · exact (mem_check_iff.mp h).1
  · intro h
    exact List.mem_append.mpr (Or.inr (mem_check_iff.mpr ⟨h, rfl⟩))

/-- C1: whenever the account password and its confirmation differ,
validation is invalid and carries the mismatch issue attached to the
confirmation field `account.passwordConfirm`; when they are exactly
equal, no such cross-field issue appears anywhere in the result. -/
theorem password_mismatch_error (d : FormData) :
    (d.account.password ≠ d.account.passwordConfirm →
      validate d ≠ [] ∧
      (⟨"account.passwordConfirm", "As senhas não conferem"⟩ : FieldError) ∈ validate d) ∧
    (d.account.password = d.account.passwordConfirm →
      (⟨"account.passwordConfirm", "As senhas não conferem"⟩ : FieldError) ∉ validate d) := by
  constructor
  · intro hne
    have hdec : decide (d.account.password = d.account.passwordConfirm) = false := by
      simpa using hne
    have hcross : crossFieldErrors d
        = [⟨"account.passwordConfirm", "As senhas não conferem"⟩] := by
      unfold crossFieldErrors check
      simp [hdec]
    constructor
    · unfold validate
      rw [hcross]
      simp
    · unfold validate
      rw [hcross]
      simp
  · intro heq hmem
    unfold validate at hmem
    rcases List.mem_append.mp hmem with h | h
    · exact absurd (allFieldErrors_sub d _ h) (by decide)
    · unfold crossFieldErrors check at h
      rw [if_pos (by simp [heq])] at h
      simp at h

/-- Witness for C1: password abc123 with confirmation abc124. -/
theorem password_mismatch_error_witness :
    validate sampleMismatchData ≠ [] ∧
    (⟨"account.passwordConfirm", "As senhas não conferem"⟩ : FieldError)
      ∈ validate sampleMismatchData :=
  (password_mismatch_error sampleMismatchData).1 (by decide)

/-- C2 evidence: the name value A1 passes the letters regex test (the
unanchored regex only asks for one letter or space), so its single issue
is the minimum-length one — the letters-only rule is not what rejects
it — and Anna1234, which is not letters-only, passes the name checks
entirely; Ana Maria also passes. -/
theorem name_letters_rule_gap :
    containsLetterOrSpace "A1" = true ∧
    nameErrors "personal.firstName" "A1"
      = [⟨"personal.firstName", "Insira um nome válido"⟩] ∧
    nameErrors "personal.firstName" "Anna1234" = [] ∧
    nameErrors "personal.firstName" "Ana Maria" = [] := by
  decide

/-- C8: no issue is ever attached to `account.password`, and the only
issues under the `account` group are the email-format issue and the
cross-field mismatch issue — `password` and `passwordConfirm` have no
per-field rules. -/
theorem account_group_only_email_or_cross (d : FormData) :
    (∀ e ∈ validate d, e.path ≠ "account.password") ∧
    (∀ e ∈ validate d, strLeads "account" e.path = true →
      e = ⟨"account.email", "Insira um e-mail válido"⟩ ∨
      e = ⟨"account.passwordConfirm", "As senhas não conferem"⟩) := by
  have hgen : ∀ x ∈ possibleFieldErrors, strLeads "account" x.path = true →
      (x = (⟨"account.email", "Insira um e-mail válido"⟩ : FieldError) ∨
       x = (⟨"account.passwordConfirm", "As senhas não conferem"⟩ : FieldError)) := by
    decide
  have hpaths : ∀ x ∈ possibleFieldErrors, x.path ≠ "account.password" := by
    decide
  constructor
  · intro e he
    rcases List.mem_append.mp he with h | h
    · exact hpaths e (allFieldErrors_sub d e h)
    · unfold crossFieldErrors at h
      rw [eq_of_mem_check h]
      decide
  · intro e he hp
    rcases List.mem_append.mp he with h | h
    · exact hgen e (allFieldErrors_sub d e h) hp
    · unfold crossFieldErrors at h
      exact Or.inr (eq_of_mem_check h)

/-- Witness for C8 at the mismatching sample form and its cross-field
issue. -/
theorem account_group_only_email_or_cross_witness :
    (⟨"account.passwordConfirm", "As senhas não conferem"⟩ : FieldError)
        = ⟨"account.email", "Insira um e-mail válido"⟩ ∨
    (⟨"account.passwordConfirm", "As senhas não conferem"⟩ : FieldError)
        = ⟨"account.passwordConfirm", "As senhas não conferem"⟩ :=
  (account_group_only_email_or_cross sampleMismatchData).2 _ (by decide) (by decide)

/-- C5: a submit attempt validates the full schema (`submitStep` decides
on `validate d`, which covers all three groups and ignores the active
step); when validation fails, the step advances exactly when the active
step's own group has no issues and the active step is not the last one,
and stays unchanged otherwise. -/
theorem submit_advance (d : FormData) (s : Nat) (hfail : validate d ≠ []) :
    (hasGroupErrors d s = false → s ≠ 2 → submitStep d s = s + 1) ∧
    (hasGroupErrors d s = true ∨ s = 2 → submitStep d s = s) := by
  constructor
  · intro hg hs
    unfold submitStep
    rw [if_neg hfail, if_neg (by simp [hg]), if_pos hs]
  · intro h
    unfold submitStep
    rw [if_neg hfail]
    rcases h with h | h
    · rw [if_pos h]
    · by_cases hg : hasGroupErrors d s = true
      · rw [if_pos hg]
      · rw [if_neg hg, if_neg (by simp [h])]

/-- Witness for C5: a form whose personal group is clean but whose other
groups fail, submitted from step 0, advances to step 1. -/
theorem submit_advance_witness :
    validate sampleStepData ≠ [] ∧ hasGroupErrors sampleStepData 0 = false ∧
    submitStep sampleStepData 0 = 0 + 1 :=
  ⟨by decide, by decide,
    (submit_advance sampleStepData 0 (by decide)).1 (by decide) (by decide)⟩

theorem submitStep_le (d : FormData) (s : Nat) (h : s ≤ 2) : submitStep d s ≤ 2 := by
  unfold submitStep
  split_ifs <;> omega

/-- C9: the active step starts at 1 — the address step, not the first
one — and every reachable active-step value lies between 0 and 2. -/
theorem activeStep_init_and_bounded :
    initialActiveStep = 1 ∧ ∀ s : Nat, StepReachable s → s ≤ 2 := by
  refine ⟨rfl, ?_⟩
  intro s h
  induction h with
  | init => decide
  | next e hr ih =>
    cases e with
    | submit d => exact submitStep_le d _ ih
    | back =>
      simp only [stepTransition]
      split <;> omega

/-- Witness for C9 at the initial state. -/
theorem activeStep_init_and_bounded_witness : StepReachable 1 ∧ (1 : Nat) ≤ 2 :=
  ⟨StepReachable.init, activeStep_init_and_bounded.2 1 StepReachable.init⟩

/-- C3: on a complete cep, a cache hit fills the address fields from the
cached record and performs no network call and no cache change; a cache
miss performs the lookup and, when it resolves, pushes the fetched record
under the masked cep; and no lookup happens for an incomplete or empty
cep value. -/
theorem cep_cache_short_circuit (fetch : String → Option CepSetValues)
    (st : CepState) (v : String) :
    (∀ r : CepRecord, v ≠ "" → (cepMask v).isComplete = true →
      st.cache.find? (fun r => r.cep = (cepMask v).value) = some r →
      (processCep fetch st v).networkCalls = st.networkCalls ∧
      (processCep fetch st v).cache = st.cache ∧
      (processCep fetch st v).form.address.city = r.localidade.getD "" ∧
      (processCep fetch st v).form.address.district = r.bairro.getD "" ∧
      (processCep fetch st v).form.address.street = r.logradouro.getD "" ∧
      (processCep fetch st v).form.address.complement = r.complemento.getD "" ∧
      (processCep fetch st v).form.address.uf = r.uf.getD "") ∧
    (v ≠ "" → (cepMask v).isComplete = true →
      st.cache.find? (fun r => r.cep = (cepMask v).value) = none →
      (processCep fetch st v).networkCalls
        = st.networkCalls ++ [(cepMask v).unmaskedValue] ∧
      ∀ a : CepSetValues, fetch (cepMask v).unmaskedValue = some a →
        (processCep fetch st v).cache
          = st.cache ++ [⟨(cepMask v).value, a.bairro, a.localidade, a.logradouro,
              a.complemento, a.uf⟩] ∧
        (processCep fetch st v).form.address.city = a.localidade.getD "") ∧
    ((cepMask v).isComplete = false ∨ v = "" →
      (processCep fetch st v).networkCalls = st.networkCalls ∧
      (processCep fetch st v).cache = st.cache) := by
  refine ⟨?_, ?_, ?_⟩
  · intro r hne hc hfind
    unfold processCep
    rw [if_neg hne, if_pos hc, hfind]
    exact ⟨rfl, rfl, rfl, rfl, rfl, rfl, rfl⟩
  · intro hne hc hfind
    unfold processCep
    rw [if_neg hne, if_pos hc, hfind]
    constructor
    · cases hfetch : fetch (cepMask v).unmaskedValue <;> rfl
    · intro a hfetch
      rw [hfetch]
      exact ⟨rfl, rfl⟩
  · intro h
    rcases h with h | h
    · unfold processCep
      by_cases hne : v = ""
      · rw [if_pos hne]
        exact ⟨rfl, rfl⟩
      · rw [if_neg hne, if_neg (by simp [h])]
        exact ⟨rfl, rfl⟩
    · unfold processCep
      rw [if_pos h]
      exact ⟨rfl, rfl⟩

/-- Witness for C3: the cached state serves 01001-000 without a network
call. -/
theorem cep_cache_short_circuit_witness :
    (processCep sampleFetch sampleCachedState "01001000").networkCalls = [] ∧
    (processCep sampleFetch sampleCachedState "01001000").form.address.city
      = "São Paulo" := by
  have h := (cep_cache_short_circuit sampleFetch sampleCachedState "01001000").1
    sampleCepRecord (by decide) (by decide) (by decide)
  exact ⟨h.1, h.2.2.1⟩

/-- C4: in every reachable cep-effect state, every cep stored in the
cache re-masks to complete (it was confirmed complete before its lookup),
and every postal code ever handed to `getCepData` masks to complete —
lookups only happen for complete codes. -/
theorem cep_cache_invariant (fetch : String → Option CepSetValues) (st : CepState)
    (h : CepReachable fetch st) :
    (∀ r ∈ st.cache, (cepMask r.cep).isComplete = true) ∧
    (∀ u ∈ st.networkCalls, (cepMask u).isComplete = true) := by
  induction h with
  | init f => exact ⟨by simp, by simp⟩
  | next v hr ih =>
    rcases ih with ⟨ihc, ihn⟩
    unfold processCep
    split
    · exact ⟨ihc, ihn⟩
    · split
      · next hcomp =>
        split
        · exact ⟨ihc, ihn⟩
        · split
          · next a hfetch =>
            constructor
            · intro r hrmem
              rcases List.mem_append.mp hrmem with hm | hm
              · exact ihc r hm
              · have hr2 : r = ⟨(cepMask v).value, a.bairro, a.localidade,
                    a.logradouro, a.complemento, a.uf⟩ := by
                  simpa using hm
                rw [hr2]
                exact (cepMask_value_complete hcomp).1
            · intro u humem
              rcases List.mem_append.mp humem with hm | hm
              · exact ihn u hm
              · have hu : u = (cepMask v).unmaskedValue := by simpa using hm
                rw [hu]
                exact (cepMask_value_complete hcomp).2
          · refine ⟨ihc, ?_⟩
            intro u humem
            rcases List.mem_append.mp humem with hm | hm
            · exact ihn u hm
            · have hu : u = (cepMask v).unmaskedValue := by simpa using hm
              rw [hu]
              exact (cepMask_value_complete hcomp).2
      · exact ⟨ihc, ihn⟩

/-- Witness for C4 at the state reached by one lookup of 01001000. -/
theorem cep_cache_invariant_witness :
    (cepMask "01001-000").isComplete = true ∧
    (cepMask "01001000").isComplete = true := by
  have h := cep_cache_invariant sampleFetch sampleCepState1
    (CepReachable.next "01001000" (CepReachable.init sampleForm))
  exact ⟨h.1 sampleCepRecord (by decide), h.2 "01001000" (by decide)⟩

/-- C10: the autofill overwrites exactly the five address fields city,
district, street, complement and uf — each with the record's field, or
the empty string when absent — and leaves the cep field, the street
number and the whole personal and account groups untouched; moreover the
cep effect as a whole never changes the personal or account groups. -/
theorem autofill_frame (w : CepSetValues) (f : FormData)
    (fetch : String → Option CepSetValues) (st : CepState) (v : String) :
    ((setAddressValues w f).address.city = w.localidade.getD "" ∧
     (setAddressValues w f).address.district = w.bairro.getD "" ∧
     (setAddressValues w f).address.street = w.logradouro.getD "" ∧
     (setAddressValues w f).address.complement = w.complemento.getD "" ∧
     (setAddressValues w f).address.uf = w.uf.getD "" ∧
     (setAddressValues w f).address.cep = f.address.cep ∧
     (setAddressValues w f).address.streetNumber = f.address.streetNumber ∧
     (setAddressValues w f).personal = f.personal ∧
     (setAddressValues w f).account = f.account) ∧
    ((processCep fetch st v).form.personal = st.form.personal ∧
     (processCep fetch st v).form.account = st.form.account) := by
  refine ⟨⟨rfl, rfl, rfl, rfl, rfl, rfl, rfl, rfl, rfl⟩, ?_⟩
  unfold processCep
  split
  · exact ⟨rfl, rfl⟩
  · split
    · split
      · exact ⟨rfl, rfl⟩
      · split
        · exact ⟨rfl, rfl⟩
        · exact ⟨rfl, rfl⟩
    · exact ⟨rfl, rfl⟩

end RegisterForm
